import Mathlib

set_option maxRecDepth 4000

/-!
Verification of the indicator/scoring/ranking engine of the stock screening
program (source: your_original_script.py).

Modelling conventions (shallow embedding):

* A pandas DataFrame of one ticker is a chronologically ordered
  listing of rows, `List Row`.  The raw frame carries only the Close column
  (the other raw columns are never read by the core); every derived column is
  an `Option Rat` field of `Row`, where `none` stands for a NaN entry
  (a rolling window that is not yet full) and also for a column that is
  absent from a raw frame.  Prices and every derived quantity are embedded as
  exact rationals; the source uses IEEE doubles, whose comparisons and
  arithmetic on the finite values reached here agree with the rational ones.

* Python comparisons against NaN are False; the helpers oLT/oLE/oGT below
  return `false` whenever either operand is `none`, mirroring that.

* `rs = gain/loss` (line 85 of the source) divides by zero when the mean
  loss is 0.  In IEEE arithmetic `x/0 = inf` for `x > 0` (so
  `RSI = 100 - 100/(1+inf) = 100`) and `0/0 = NaN` (so RSI is NaN).
  `rsiAt` reproduces exactly this float behaviour; there is no explicit
  special case in the source.

* Functions taking `data` that may be Python `None` take an
  `Option (List Row)`.

* `data.iloc[-1]` on an empty frame raises IndexError in Python; `lastRow`
  totalises it with a default row.  Every claim below constrains frames of
  at least 20 or 50 rows only, where the two semantics agree.

* `pyInt` is the Python builtin int() on a float: truncation toward zero.

* The Volatility column is `std(dailyReturns) * 100` in the source, an
  irrational number in general.  The model stores its square
  (`variance * 10000`) in the `volSq` field; `x ↦ x²` is strictly monotone
  on the nonnegative reals, so equality and the threshold comparisons
  `vol > 3` / `vol > 2` of the source are represented faithfully by
  comparisons of `volSq` with 9 and 4.
-/

/-- Python `int()` applied to a (finite) float: truncation toward zero. -/
def pyInt (q : ℚ) : ℤ := if q < 0 then -⌊-q⌋ else ⌊q⌋

/-- Python `a < b` on float columns: False when either side is NaN/absent. -/
def oLT (a b : Option ℚ) : Bool :=
  match a, b with
  | some x, some y => decide (x < y)
  | _, _ => false

/-- Python `a <= b` on float columns: False when either side is NaN/absent. -/
def oLE (a b : Option ℚ) : Bool :=
  match a, b with
  | some x, some y => decide (x ≤ y)
  | _, _ => false

/-- Python `a > b` on float columns: False when either side is NaN/absent. -/
def oGT (a b : Option ℚ) : Bool :=
  match a, b with
  | some x, some y => decide (y < x)
  | _, _ => false

/-- One row of the (possibly enriched) per-ticker frame.  `close` is the raw
Close price; each derived column is `none` where the source frame holds NaN
(or does not have the column yet). -/
structure Row where
  close : ℚ
  ma20 : Option ℚ
  ma50 : Option ℚ
  ma200 : Option ℚ
  rsi : Option ℚ
  ema12 : Option ℚ
  ema26 : Option ℚ
  macd : Option ℚ
  signal : Option ℚ
  dailyReturn : Option ℚ
  volSq : Option ℚ
deriving DecidableEq, Repr

/-- A raw fetched row: only the Close price is present. -/
def rawRow (q : ℚ) : Row :=
  ⟨q, none, none, none, none, none, none, none, none, none, none⟩

instance : Inhabited Row := ⟨rawRow 0⟩

/-- The Close column of a frame. -/
def closes (df : List Row) : List ℚ := df.map Row.close

/-- data.iloc[-1]: the last row.  (IndexError on an empty frame in the
source; all claims range over nonempty frames.) -/
def lastRow (df : List Row) : Row := df.getLastD (rawRow 0)

/-- The max() of the Close column: maximum of a nonempty list (NaN on an empty frame
in pandas; all claims range over frames of length at least 50). -/
def listMax : List ℚ → ℚ
  | [] => 0
  | x :: xs => xs.foldl max x

/-- series.rolling(window=w).mean() at position i: NaN until the window is
full, then the arithmetic mean of the trailing w entries. -/
def rollMean (w : ℕ) (c : List ℚ) (i : ℕ) : Option ℚ :=
  if i + 1 < w then none
  else some (((c.drop (i + 1 - w)).take w).sum / (w : ℚ))

/-- delta.where(delta > 0, 0): the positive part of the close-to-close
change; the NaN of delta at position 0 is replaced by 0 by `where`. -/
def posDeltas (c : List ℚ) : List ℚ :=
  (List.range c.length).map fun i =>
    if i = 0 then 0 else max (c.getD i 0 - c.getD (i - 1) 0) 0

/-- Minus delta.where(delta < 0, 0): the magnitude of the negative part of the
close-to-close change; the NaN of delta at position 0 becomes 0. -/
def negDeltas (c : List ℚ) : List ℚ :=
  (List.range c.length).map fun i =>
    if i = 0 then 0 else max (c.getD (i - 1) 0 - c.getD i 0) 0

/-- RSI = 100 - 100/(1 + gain/loss) at position i, with the IEEE float
semantics of the division gain/loss: exact when loss > 0, +inf when
loss = 0 < gain (whence RSI = 100), NaN when gain = loss = 0 (whence RSI is
NaN, i.e. `none`). -/
def rsiAt (c : List ℚ) (i : ℕ) : Option ℚ :=
  match rollMean 14 (posDeltas c) i, rollMean 14 (negDeltas c) i with
  | some g, some l =>
      if l = 0 then (if g = 0 then none else some 100)
      else some (100 - 100 / (1 + g / l))
  | _, _ => none

/-- The tail of series.ewm(span, adjust=False).mean() after the seed:
e_i = alpha * x_i + (1 - alpha) * e_(i-1). -/
def emaFrom (alpha prev : ℚ) : List ℚ → List ℚ
  | [] => []
  | x :: xs =>
      let e := alpha * x + (1 - alpha) * prev
      e :: emaFrom alpha e xs

/-- series.ewm(span, adjust=False).mean() with alpha = 2/(span+1); the seed
is the first entry. -/
def ema (alpha : ℚ) : List ℚ → List ℚ
  | [] => []
  | x :: xs => x :: emaFrom alpha x xs

/-- The pct_change() of the Close column at position i: NaN at position 0. -/
def dailyRetAt (c : List ℚ) (i : ℕ) : Option ℚ :=
  if i = 0 then none else some (c.getD i 0 / c.getD (i - 1) 0 - 1)

/-- Sample variance (pandas .std() uses ddof = 1, i.e. divides by n-1). -/
def sampleVar (l : List ℚ) : ℚ :=
  let n : ℚ := l.length
  let m : ℚ := l.sum / n
  (l.map fun x => (x - m) ^ 2).sum / (n - 1)

/-- The square of the rolling(20).std() * 100 of the Daily_Return column at
position i.  The window needs 20 non-NaN returns; the return at position 0
is NaN, so the first defined entry is at position 20. -/
def volSqAt (c : List ℚ) (i : ℕ) : Option ℚ :=
  if i < 20 then none
  else some
    (sampleVar ((List.range 20).map fun k =>
        c.getD (i - 19 + k) 0 / c.getD (i - 20 + k) 0 - 1) * 10000)

/-- The column assignments of calculate_technical_indicators, lines 76-96:
every derived column is a function of the Close column alone. -/
def buildRows (c : List ℚ) : List Row :=
  (List.range c.length).map fun i =>
    { close := c.getD i 0
      ma20 := rollMean 20 c i
      ma50 := rollMean 50 c i
      ma200 := rollMean 200 c i
      rsi := rsiAt c i
      ema12 := some ((ema (2/13) c).getD i 0)
      ema26 := some ((ema (2/27) c).getD i 0)
      macd := some ((List.zipWith (fun a b => a - b) (ema (2/13) c) (ema (2/27) c)).getD i 0)
      signal := some ((ema (2/10) (List.zipWith (fun a b => a - b) (ema (2/13) c) (ema (2/27) c))).getD i 0)
      dailyReturn := dailyRetAt c i
      volSq := volSqAt c i }

/-- calculate_technical_indicators (lines 70-98): None for a missing frame
or fewer than 50 bars, otherwise the frame enriched with all derived
columns. -/
def calculate_technical_indicators (data : Option (List Row)) : Option (List Row) :=
  match data with
  | none => none
  | some df => if df.length < 50 then none else some (buildRows (closes df))

/-- The test `x is np.nan` (line 206 of the source) is a Python object
identity comparison against the module-level float singleton np.nan.  A
scalar read from a pandas frame by .iloc is a fresh numpy.float64 object,
never that singleton, so the test is False for every frame value whether or
not it is NaN. -/
def isNpNan (_x : Option ℚ) : Bool := false

/-- calculate_trend_strength (lines 204-232). -/
def calculate_trend_strength (data : Option (List Row)) : ℤ :=
  match data with
  | none => 0
  | some df =>
    let last := lastRow df
    if isNpNan last.ma20 || isNpNan last.ma50 then 0
    else
      (if oGT (some last.close) last.ma20 then 20 else 0)
      + (if oGT (some last.close) last.ma50 then 20 else 0)
      + (if oGT last.ma20 last.ma50 then 20 else 0)
      + (if oLE (some 50) last.rsi && oLE last.rsi (some 70) then 20
         else if oLE (some 40) last.rsi && oLT last.rsi (some 50) then 10 else 0)
      + (if oGT last.macd last.signal then 20 else 0)

/-- get_buy_signal (lines 234-283). -/
def get_buy_signal (data : Option (List Row)) : String :=
  match data with
  | none => "N/A"
  | some df =>
    if df.length < 20 then "N/A"
    else
      let last := lastRow df
      let score : ℤ :=
        (if oGT (some last.close) last.ma20 then 1 else 0)
        + (if oGT (some last.close) last.ma50 then 1 else 0)
        + (if oGT last.ma20 last.ma50 then 1 else 0)
        + (if oLT last.rsi (some 30) then 1
           else if oGT last.rsi (some 70) then -1 else 0)
        + (if oGT last.macd last.signal then 1 else -1)
      if 3 ≤ score then "BUY"
      else if score ≤ -1 then "SELL"
      else "HOLD"

/-- Methods 1 and 2 of calculate_growth_potential (lines 109-127): the
heuristic growth percentage before the historical-high cap. -/
def growthHeuristic (df : List Row) : ℚ :=
  let last := lastRow df
  if oLE (some 30) last.rsi && oLE last.rsi (some 45) then 10
  else if oLT (some 45) last.rsi && oLE last.rsi (some 55) then 7
  else if oLT (some 55) last.rsi && oLE last.rsi (some 65) then 12
  else if oGT (some last.close) last.ma20 && oGT last.ma20 last.ma50 then 15
  else if oGT last.ma20 (some last.close) && oGT (some last.close) last.ma50 then 8
  else if oGT (some last.close) last.ma50 then 5
  else 0

/-- calculate_growth_potential (lines 100-143): returns
(growth_percent, target_price). -/
def calculate_growth_potential (data : Option (List Row)) : ℚ × ℚ :=
  match data with
  | none => (0, 0)
  | some df =>
    if df.length < 50 then (0, 0)
    else
      let current := (lastRow df).close
      let growth1 := growthHeuristic df
      let target1 := current * (1 + growth1 / 100)
      let high := listMax (closes df)
      if current < high then
        let pot := (high / current - 1) * 100
        if pot < growth1 then (pot, high) else (growth1, target1)
      else (growth1, target1)

/-- calculate_stop_loss (lines 145-153).  The source declares
risk_percentage with default value 5; both call sites in the program omit
the argument, so here it is passed explicitly. -/
def calculate_stop_loss (data : Option (List Row)) (risk_percentage : ℚ) : ℚ :=
  match data with
  | none => 0
  | some df => (lastRow df).close * (1 - risk_percentage / 100)

/-- recommend_holding_time (lines 155-179); volSq is compared with 9 = 3²
and 4 = 2² (NaN volatility falls to the low-volatility branch, as both
float comparisons are False). -/
def recommend_holding_time (data : Option (List Row)) : String :=
  match data with
  | none => "Unknown"
  | some df =>
    let vol := (lastRow df).volSq
    let trend_score := calculate_trend_strength (some df)
    if oGT vol (some 9) then
      if trend_score > 70 then "4-6 weeks (Short-term)"
      else "1-3 weeks (Very short-term)"
    else if oGT vol (some 4) then
      if trend_score > 70 then "2-4 months (Medium-term)"
      else "1-2 months (Short-term)"
    else
      if trend_score > 70 then "4-6 months (Medium-term)"
      else "2-3 months (Medium-term)"

/-- recommend_exit_strategy (lines 181-202).  The float literal 0.7 of the
source is written 7/10; no claim depends on its value.  The f-strings are
built by concatenation. -/
def recommend_exit_strategy (data : Option (List Row)) (growth_percent stop_loss_price : ℚ) :
    String × ℚ :=
  match data with
  | none => ("Unknown", 0)
  | some df =>
    let current := (lastRow df).close
    let profit_target := current * (1 + growth_percent / 100)
    let profit_percentage := growth_percent
    let vol := (lastRow df).volSq
    if oGT vol (some 9) then
      ("Exit if profit reaches +" ++ toString (pyInt (profit_percentage * (7/10)))
        ++ "% or loss exceeds -"
        ++ toString (pyInt ((current - stop_loss_price) / current * 100)) ++ "%",
       profit_target)
    else
      ("Exit if profit reaches +" ++ toString (pyInt profit_percentage)
        ++ "% or loss exceeds -"
        ++ toString (pyInt ((current - stop_loss_price) / current * 100)) ++ "%",
       profit_target)

/-- The record returned by get_advanced_analysis. -/
structure AdvancedAnalysis where
  growth_percent : ℚ
  target_price : ℚ
  stop_loss_price : ℚ
  holding_time : String
  exit_strategy : String
deriving DecidableEq, Repr

/-- get_advanced_analysis (lines 285-314).  Note that the call
calculate_stop_loss(data) on line 300 omits risk_percentage, so the
Python default 5 is always used; the function body contains no reference to
the module-global RISK_PERCENTAGE. -/
def get_advanced_analysis (data : Option (List Row)) : AdvancedAnalysis :=
  match data with
  | none => ⟨0, 0, 0, "Unknown", "Unknown"⟩
  | some df =>
    let gp := calculate_growth_potential (some df)
    let sl := calculate_stop_loss (some df) 5
    ⟨gp.1, gp.2, sl, recommend_holding_time (some df),
      (recommend_exit_strategy (some df) gp.1 sl).1⟩

/-- The stop-loss price reported by the analysis/screening paths when the
process-wide RISK_PERCENTAGE setting (menu option 3, lines 592-614) holds
riskSetting.  No function on these paths reads the global, so the
parameter is unused - exactly as in the source, where the global is read
only by the settings menu itself. -/
def reported_stop_loss (_riskSetting : ℚ) (data : Option (List Row)) : ℚ :=
  (get_advanced_analysis data).stop_loss_price

/-- One entry of the opportunities list of find_stock_opportunities
(lines 442-456).  idx is the position of the ticker in the scanned universe
(discovery order); it stands in for the ticker string. -/
structure Opp where
  idx : ℕ
  price : ℚ
  shares : ℤ
  investment : ℚ
  trendScore : ℤ
  signal : String
  growthPercent : ℚ
  targetPrice : ℚ
  stopLossPrice : ℚ
  holdingTime : String
  exitStrategy : String
deriving DecidableEq, Repr

/-- A default Opp (used only to totalise list head selection in witnesses). -/
def dOpp : Opp := ⟨0, 0, 0, 0, 0, "", 0, 0, 0, "", ""⟩

/-- The per-ticker body of the loop of find_stock_opportunities
(lines 411-456): None when the ticker is skipped (indicators unavailable,
price over budget, or no affordable share). -/
def mkOpp (budget : ℚ) (i : ℕ) (raw : List Row) : Option Opp :=
  match calculate_technical_indicators (some raw) with
  | none => none
  | some dfi =>
    let current_price := (lastRow dfi).close
    if budget < current_price then none
    else
      let shares_possible := pyInt (budget / current_price)
      if shares_possible < 1 then none
      else
        let advanced := get_advanced_analysis (some dfi)
        some
          { idx := i
            price := current_price
            shares := shares_possible
            investment := shares_possible * current_price
            trendScore := calculate_trend_strength (some dfi)
            signal := get_buy_signal (some dfi)
            growthPercent := advanced.growth_percent
            targetPrice := advanced.target_price
            stopLossPrice := advanced.stop_loss_price
            holdingTime := advanced.holding_time
            exitStrategy := advanced.exit_strategy }

/-- The collection loop of find_stock_opportunities: walk the universe of
fetch results in discovery order (a None entry is a failed fetch or an
empty frame, skipped at line 412-413), appending each qualifying
opportunity. -/
def collectOpps (budget : ℚ) : ℕ → List (Option (List Row)) → List Opp
  | _, [] => []
  | i, none :: rest => collectOpps budget (i + 1) rest
  | i, some raw :: rest =>
    match mkOpp budget i raw with
    | none => collectOpps budget (i + 1) rest
    | some o => o :: collectOpps budget (i + 1) rest

/-- The sort key relation of line 461: descending trend score.  The Python
list.sort(key=..., reverse=True) is a stable descending sort; insertion
sort with this relation (ties keep the left element first) computes the
same list. -/
def oppLe (a b : Opp) : Prop := b.trendScore ≤ a.trendScore

instance : DecidableRel oppLe := fun a b =>
  inferInstanceAs (Decidable (b.trendScore ≤ a.trendScore))

instance : IsTotal Opp oppLe := ⟨fun a b => le_total b.trendScore a.trendScore⟩

instance : IsTrans Opp oppLe := ⟨fun _ _ _ h₁ h₂ => le_trans h₂ h₁⟩

/-- find_stock_opportunities (lines 388-463), with the external fetches
already performed: the argument is the list of per-ticker fetch results in
universe order. -/
def find_stock_opportunities (fetched : List (Option (List Row))) (budget : ℚ) : List Opp :=
  List.insertionSort oppLe (collectOpps budget 0 fetched)

/-! Concrete frames used by witnesses and counterexamples. -/

/-- A 50-bar raw frame with constant close 1. -/
def dfFlat : List Row := List.replicate 50 (rawRow 1)

/-- The enrichment of dfFlat. -/
def eFlat : List Row := buildRows (closes dfFlat)

/-- The constant close column used for the RSI counterexample. -/
def flatC : List ℚ := List.replicate 50 1

/-- A 14-bar close column alternating 1,2 (gain 1/2, loss 3/7 per bar). -/
def cW : List ℚ := [1, 2, 1, 2, 1, 2, 1, 2, 1, 2, 1, 2, 1, 2]

/-- A last row realizing the spec scenario close=100, MA20=95, MA50=90,
RSI=60, MACD=1 > Signal=0. -/
def rowS : Row :=
  ⟨100, some 95, some 90, none, some 60, some 0, some 0, some 1, some 0, none, none⟩

/-- A row with undefined MA20/MA50 but RSI 60 and MACD 1 > Signal 0. -/
def rowC8 : Row :=
  ⟨1, none, none, none, some 60, some 0, some 0, some 1, some 0, none, none⟩

/-- A 50-bar raw frame: close 4 then 49 bars at close 1. -/
def dfC3 : List Row := rawRow 4 :: List.replicate 49 (rawRow 1)

/-- A 50-bar frame whose last row has RSI 35, with constant close 1. -/
def dfW7 : List Row :=
  List.replicate 50 ⟨1, some 2, some 3, none, some 35, some 0, some 0, some 0, some 0, none, none⟩

/-- A 50-bar raw frame with constant close 100. -/
def dfC6 : List Row := List.replicate 50 (rawRow 100)

/-- A small universe of fetch results: a good ticker, a failed fetch, and a
ticker with only 10 bars. -/
def U5 : List (Option (List Row)) :=
  [some dfFlat, none, some (List.replicate 10 (rawRow 1))]

/-- The first entry of the screening output on U5 with budget 100. -/
def o5 : Opp := (find_stock_opportunities U5 100).headD dOpp

/-! Helper lemmas. -/

theorem getD_range_map (c : List ℚ) :
    ((List.range c.length).map fun i => c.getD i 0) = c := by
  apply List.ext_getElem (by simp)
  intro i h1 h2
  simp [List.getD_eq_getElem?_getD, List.getElem?_eq_getElem h2]

theorem closes_buildRows (c : List ℚ) : closes (buildRows c) = c := by
  unfold closes buildRows
  rw [List.map_map]
  exact getD_range_map c

theorem buildRows_length (c : List ℚ) : (buildRows c).length = c.length := by
  simp [buildRows]

theorem closes_length (df : List Row) : (closes df).length = df.length := by
  simp [closes]

theorem calcTI_some (df e : List Row)
    (h : calculate_technical_indicators (some df) = some e) :
    50 ≤ df.length ∧ e = buildRows (closes df) := by
  simp only [calculate_technical_indicators] at h
  by_cases hl : df.length < 50
  · rw [if_pos hl] at h; exact absurd h (by simp)
  · rw [if_neg hl] at h
    exact ⟨le_of_not_lt hl, (Option.some.inj h).symm⟩

/-- C9: the indicator computation is deterministic, is a function of the
Close column alone, and is idempotent: enriching an already enriched frame
reproduces it bit for bit (every derived column equal). -/
theorem indicators_idempotent : ∀ df e : List Row,
    calculate_technical_indicators (some df) = some e →
    closes e = closes df ∧ calculate_technical_indicators (some e) = some e := by
  intro df e h
  obtain ⟨h50, rfl⟩ := calcTI_some df e h
  have hc : closes (buildRows (closes df)) = closes df := closes_buildRows _
  refine ⟨hc, ?_⟩
  have hlen : (buildRows (closes df)).length = df.length := by
    rw [buildRows_length, closes_length]
  simp only [calculate_technical_indicators]
  rw [if_neg (by omega), hc]

/-- C9 witness: the flat 50-bar frame. -/
theorem indicators_idempotent_witness :
    closes (buildRows (closes dfFlat)) = closes dfFlat
    ∧ calculate_technical_indicators (some (buildRows (closes dfFlat)))
        = some (buildRows (closes dfFlat)) :=
  indicators_idempotent dfFlat (buildRows (closes dfFlat)) rfl

/-- C10: a missing frame or one with fewer than 50 bars yields
growthPercent 0 and targetPrice 0 (not the current close). -/
theorem growth_insufficient_spec :
    calculate_growth_potential none = (0, 0)
    ∧ ∀ df : List Row, df.length < 50 → calculate_growth_potential (some df) = (0, 0) := by
  refine ⟨rfl, fun df h => ?_⟩
  simp [calculate_growth_potential, h]

/-- C10 witness: a 10-bar frame. -/
theorem growth_insufficient_spec_witness :
    calculate_growth_potential (some (List.replicate 10 (rawRow 1))) = (0, 0) :=
  growth_insufficient_spec.2 _ (by decide)

/-- C6: the reported stop-loss is independent of the process-wide risk
setting and always uses the default 5 percent: with the setting at 10 and
last close 100 the report says 95, not 100 * (1 - 10/100) = 90.  The
setting is read by no analysis function (get_advanced_analysis calls
calculate_stop_loss without the risk argument). -/
theorem risk_setting_ignored :
    (∀ r : ℚ, reported_stop_loss r (some dfC6) = 95)
    ∧ reported_stop_loss 10 (some dfC6) ≠ 100 * (1 - (10 : ℚ) / 100) := by
  have h : reported_stop_loss 0 (some dfC6) = 95 := by with_unfolding_all decide
  exact ⟨fun _r => h, by with_unfolding_all decide⟩

/-- C8: on a frame whose last row has undefined MA20 and MA50 the guard of
calculate_trend_strength does not fire (the np.nan identity test is always
False), and the function returns 40 (RSI 60 contributes 20, MACD 1 over
Signal 0 contributes 20) instead of the documented 0. -/
theorem trend_guard_never_fires :
    (lastRow [rowC8]).ma20 = none
    ∧ (lastRow [rowC8]).ma50 = none
    ∧ calculate_trend_strength (some [rowC8]) = 40
    ∧ (40 : ℤ) ≠ 0 := by with_unfolding_all decide

/-- C4 counterexample: on the constant 50-bar series the mean loss of the
full last 14-bar window is 0, yet RSI is NaN (undefined), not 100 and not
in [0,100]: the 0/0 in rs = gain/loss propagates instead of being
special-cased. -/
theorem rsi_flat_counterexample :
    rollMean 14 (negDeltas flatC) 49 = some 0
    ∧ rsiAt flatC 49 = none
    ∧ rsiAt flatC 49 ≠ some 100
    ∧ ∀ x : ℚ, ¬(rsiAt flatC 49 = some x ∧ 0 ≤ x ∧ x ≤ 100) := by
  have h : rsiAt flatC 49 = none := by with_unfolding_all decide
  refine ⟨by with_unfolding_all decide, h, by rw [h]; simp, ?_⟩
  intro x hx
  rw [h] at hx
  simp at hx

/-- C1: for an enriched series (at least 50 bars, so last-bar MA20/MA50 are
defined), trendStrength is the sum of exactly five sub-scores valued
0/10/20 (+20 close>MA20, +20 close>MA50, +20 MA20>MA50, +20 RSI in [50,70]
else +10 RSI in [40,50) else 0, +20 MACD>Signal) and lies in [0,100]; and
a last bar with close=100, MA20=95, MA50=90, RSI=60, MACD>Signal scores
exactly 100. -/
theorem trend_strength_spec :
    (∀ (df e : List Row) (m20 m50 mc sg : ℚ),
      calculate_technical_indicators (some df) = some e →
      (lastRow e).ma20 = some m20 → (lastRow e).ma50 = some m50 →
      (lastRow e).macd = some mc → (lastRow e).signal = some sg →
      calculate_trend_strength (some e)
          = (if m20 < (lastRow e).close then 20 else 0)
            + (if m50 < (lastRow e).close then 20 else 0)
            + (if m50 < m20 then 20 else 0)
            + (match (lastRow e).rsi with
               | some r => if 50 ≤ r ∧ r ≤ 70 then 20
                           else if 40 ≤ r ∧ r < 50 then 10 else 0
               | none => 0)
            + (if sg < mc then 20 else 0)
        ∧ 0 ≤ calculate_trend_strength (some e)
        ∧ calculate_trend_strength (some e) ≤ 100)
    ∧ (∀ (df : List Row) (mc sg : ℚ),
        (lastRow df).close = 100 → (lastRow df).ma20 = some 95 →
        (lastRow df).ma50 = some 90 → (lastRow df).rsi = some 60 →
        (lastRow df).macd = some mc → (lastRow df).signal = some sg →
        sg < mc →
        calculate_trend_strength (some df) = 100) := by
  constructor
  · intro df e m20 m50 mc sg _henr hm20 hm50 hmc hsg
    rcases hrs : (lastRow e).rsi with _ | r <;>
      refine ⟨?_, ?_, ?_⟩ <;>
        simp only [calculate_trend_strength, isNpNan, Bool.or_self, Bool.false_eq_true,
          if_false, oGT, oLE, oLT, hm20, hm50, hmc, hsg, hrs, Bool.and_eq_true,
          decide_eq_true_eq, and_self, false_and, and_false] <;>
      split_ifs <;> norm_num
  · intro df mc sg h100 hm20 hm50 hr hmc hsg hlt
    simp [calculate_trend_strength, isNpNan, oGT, oLE, oLT,
      hm20, hm50, hr, hmc, hsg, h100, hlt]
    norm_num

/-- C1 witness: the scenario row scores 100, and the enriched flat series
satisfies the decomposition bounds. -/
theorem trend_strength_spec_witness :
    calculate_trend_strength (some [rowS]) = 100
    ∧ 0 ≤ calculate_trend_strength (some eFlat)
    ∧ calculate_trend_strength (some eFlat) ≤ 100 :=
  ⟨trend_strength_spec.2 [rowS] 1 0 rfl rfl rfl rfl rfl rfl (by norm_num),
   (trend_strength_spec.1 dfFlat eFlat 1 1 0 0 rfl
     (by with_unfolding_all decide) (by with_unfolding_all decide)
     (by with_unfolding_all decide) (by with_unfolding_all decide)).2.1,
   (trend_strength_spec.1 dfFlat eFlat 1 1 0 0 rfl
     (by with_unfolding_all decide) (by with_unfolding_all decide)
     (by with_unfolding_all decide) (by with_unfolding_all decide)).2.2⟩

/-- C2: buySignal is N/A exactly on missing frames and frames of fewer
than 20 bars; otherwise it accumulates the integer score (+1 close>MA20,
+1 close>MA50, +1 MA20>MA50, +1 RSI<30 / -1 RSI>70, +1 MACD>Signal else
-1), which lies in [-2,5], and maps it exhaustively: score at least 3 is
BUY, score at most -1 is SELL, anything else (including 2 and 0) HOLD. -/
theorem buy_signal_spec :
    get_buy_signal none = "N/A"
    ∧ (∀ df : List Row, df.length < 20 → get_buy_signal (some df) = "N/A")
    ∧ (∀ (df : List Row) (m20 m50 mc sg : ℚ), 20 ≤ df.length →
        (lastRow df).ma20 = some m20 → (lastRow df).ma50 = some m50 →
        (lastRow df).macd = some mc → (lastRow df).signal = some sg →
        ∃ s : ℤ,
          s = (if m20 < (lastRow df).close then 1 else 0)
            + (if m50 < (lastRow df).close then 1 else 0)
            + (if m50 < m20 then 1 else 0)
            + (match (lastRow df).rsi with
               | some r => if r < 30 then 1 else if 70 < r then -1 else 0
               | none => 0)
            + (if sg < mc then 1 else -1)
          ∧ (-2 ≤ s ∧ s ≤ 5)
          ∧ get_buy_signal (some df)
              = (if 3 ≤ s then "BUY" else if s ≤ -1 then "SELL" else "HOLD")) := by
  refine ⟨rfl, fun df h => by simp [get_buy_signal, h], ?_⟩
  intro df m20 m50 mc sg hlen hm20 hm50 hmc hsg
  have hnl : ¬df.length < 20 := by omega
  rcases hrs : (lastRow df).rsi with _ | r <;>
    refine ⟨_, rfl, ?_, ?_⟩ <;>
      simp only [get_buy_signal, hnl, if_false, oGT, oLE, oLT, hm20, hm50, hmc, hsg, hrs,
        Bool.and_eq_true, decide_eq_true_eq, Bool.false_eq_true, and_self, false_and,
        and_false] <;>
    split_ifs <;> norm_num

/-- C2 witness: the enriched flat 50-bar frame (score -1, signal SELL). -/
theorem buy_signal_spec_witness :
    ∃ s : ℤ,
      s = (if (1 : ℚ) < (lastRow eFlat).close then 1 else 0)
        + (if (1 : ℚ) < (lastRow eFlat).close then 1 else 0)
        + (if (1 : ℚ) < (1 : ℚ) then 1 else 0)
        + (match (lastRow eFlat).rsi with
           | some r => if r < 30 then 1 else if 70 < r then -1 else 0
           | none => 0)
        + (if (0 : ℚ) < (0 : ℚ) then 1 else -1)
      ∧ (-2 ≤ s ∧ s ≤ 5)
      ∧ get_buy_signal (some eFlat)
          = (if 3 ≤ s then "BUY" else if s ≤ -1 then "SELL" else "HOLD") :=
  buy_signal_spec.2.2 eFlat 1 1 0 0 (by with_unfolding_all decide)
    (by with_unfolding_all decide) (by with_unfolding_all decide)
    (by with_unfolding_all decide) (by with_unfolding_all decide)

/-- The branch structure of calculate_growth_potential once the length
guard has passed. -/
theorem cgp_eq (df : List Row) (h50 : 50 ≤ df.length) :
    calculate_growth_potential (some df)
      = (if (lastRow df).close < listMax (closes df) then
           (if (listMax (closes df) / (lastRow df).close - 1) * 100 < growthHeuristic df
            then ((listMax (closes df) / (lastRow df).close - 1) * 100, listMax (closes df))
            else (growthHeuristic df,
                  (lastRow df).close * (1 + growthHeuristic df / 100)))
         else (growthHeuristic df,
               (lastRow df).close * (1 + growthHeuristic df / 100))) := by
  simp only [calculate_growth_potential]
  rw [if_neg (by omega)]

/-- C3: on any frame of at least 50 bars with positive last close whose
historical maximum close exceeds the last close, the returned growthPercent
is at most (high/close - 1)*100; whenever the cap replaces the heuristic
estimate the returned targetPrice is the historical high; and the cap never
raises growthPercent above the heuristic value. -/
theorem growth_cap_spec (df : List Row) (h50 : 50 ≤ df.length)
    (hpos : 0 < (lastRow df).close)
    (hhigh : (lastRow df).close < listMax (closes df)) :
    (calculate_growth_potential (some df)).1
        ≤ (listMax (closes df) / (lastRow df).close - 1) * 100
    ∧ ((listMax (closes df) / (lastRow df).close - 1) * 100 < growthHeuristic df →
        calculate_growth_potential (some df)
          = ((listMax (closes df) / (lastRow df).close - 1) * 100, listMax (closes df)))
    ∧ (calculate_growth_potential (some df)).1 ≤ growthHeuristic df := by
  rw [cgp_eq df h50, if_pos hhigh]
  by_cases hc : (listMax (closes df) / (lastRow df).close - 1) * 100 < growthHeuristic df
  · rw [if_pos hc]
    exact ⟨le_refl _, fun _ => rfl, le_of_lt hc⟩
  · rw [if_neg hc]
    exact ⟨le_of_not_lt hc, fun h => absurd h hc, le_refl _⟩

/-- C3 witness: close 4 then 49 bars at close 1 (high 4, last close 1). -/
theorem growth_cap_spec_witness :
    (calculate_growth_potential (some dfC3)).1
        ≤ (listMax (closes dfC3) / (lastRow dfC3).close - 1) * 100
    ∧ ((listMax (closes dfC3) / (lastRow dfC3).close - 1) * 100 < growthHeuristic dfC3 →
        calculate_growth_potential (some dfC3)
          = ((listMax (closes dfC3) / (lastRow dfC3).close - 1) * 100, listMax (closes dfC3)))
    ∧ (calculate_growth_potential (some dfC3)).1 ≤ growthHeuristic dfC3 :=
  growth_cap_spec dfC3 (by decide) (by with_unfolding_all decide)
    (by with_unfolding_all decide)

/-- C7: the growth heuristic is chosen by last-bar RSI bucket with
first-match priority (RSI in [30,45] gives 10, (45,55] gives 7, (55,65]
gives 12) and falls back to the moving-average relationship only outside
all three buckets; absent the historical-high cap the returned pair is
(heuristic, close*(1+heuristic/100)); in particular RSI 35 yields
growthPercent 10 and targetPrice close*1.10. -/
theorem growth_buckets_spec (df : List Row) (h50 : 50 ≤ df.length) (r : ℚ)
    (hr : (lastRow df).rsi = some r) :
    (30 ≤ r ∧ r ≤ 45 → growthHeuristic df = 10)
    ∧ (45 < r ∧ r ≤ 55 → growthHeuristic df = 7)
    ∧ (55 < r ∧ r ≤ 65 → growthHeuristic df = 12)
    ∧ (∀ m20 m50 : ℚ, (lastRow df).ma20 = some m20 → (lastRow df).ma50 = some m50 →
        ¬(30 ≤ r ∧ r ≤ 45) → ¬(45 < r ∧ r ≤ 55) → ¬(55 < r ∧ r ≤ 65) →
        growthHeuristic df
          = (if m20 < (lastRow df).close ∧ m50 < m20 then 15
             else if (lastRow df).close < m20 ∧ m50 < (lastRow df).close then 8
             else if m50 < (lastRow df).close then 5
             else 0))
    ∧ (¬((lastRow df).close < listMax (closes df)
          ∧ (listMax (closes df) / (lastRow df).close - 1) * 100 < growthHeuristic df) →
        calculate_growth_potential (some df)
          = (growthHeuristic df, (lastRow df).close * (1 + growthHeuristic df / 100)))
    ∧ (r = 35 →
        ¬((lastRow df).close < listMax (closes df)
          ∧ (listMax (closes df) / (lastRow df).close - 1) * 100 < 10) →
        calculate_growth_potential (some df)
          = (10, (lastRow df).close * (1 + (10 : ℚ) / 100))) := by
  have b1 : 30 ≤ r ∧ r ≤ 45 → growthHeuristic df = 10 := by
    rintro ⟨h1, h2⟩
    simp [growthHeuristic, oLE, oLT, oGT, hr, h1, h2]
  have b2 : 45 < r ∧ r ≤ 55 → growthHeuristic df = 7 := by
    rintro ⟨h1, h2⟩
    have h45 : ¬r ≤ 45 := not_le.mpr h1
    simp [growthHeuristic, oLE, oLT, oGT, hr, h1, h2, h45]
  have b3 : 55 < r ∧ r ≤ 65 → growthHeuristic df = 12 := by
    rintro ⟨h1, h2⟩
    have h45 : ¬r ≤ 45 := not_le.mpr (lt_trans (by norm_num) h1)
    have h55 : ¬r ≤ 55 := not_le.mpr h1
    simp [growthHeuristic, oLE, oLT, oGT, hr, h1, h2, h45, h55]
  have fb : ∀ m20 m50 : ℚ, (lastRow df).ma20 = some m20 → (lastRow df).ma50 = some m50 →
      ¬(30 ≤ r ∧ r ≤ 45) → ¬(45 < r ∧ r ≤ 55) → ¬(55 < r ∧ r ≤ 65) →
      growthHeuristic df
        = (if m20 < (lastRow df).close ∧ m50 < m20 then 15
           else if (lastRow df).close < m20 ∧ m50 < (lastRow df).close then 8
           else if m50 < (lastRow df).close then 5
           else 0) := by
    intro m20 m50 hm20 hm50 n1 n2 n3
    simp only [growthHeuristic, oLE, oLT, oGT, hr, hm20, hm50,
      Bool.and_eq_true, decide_eq_true_eq]
    rw [if_neg n1, if_neg n2, if_neg n3]
  have nc : ¬((lastRow df).close < listMax (closes df)
        ∧ (listMax (closes df) / (lastRow df).close - 1) * 100 < growthHeuristic df) →
      calculate_growth_potential (some df)
        = (growthHeuristic df, (lastRow df).close * (1 + growthHeuristic df / 100)) := by
    intro h
    rw [cgp_eq df h50]
    by_cases hA : (lastRow df).close < listMax (closes df)
    · have hB : ¬(listMax (closes df) / (lastRow df).close - 1) * 100 < growthHeuristic df :=
        fun hB => h ⟨hA, hB⟩
      rw [if_pos hA, if_neg hB]
    · rw [if_neg hA]
  refine ⟨b1, b2, b3, fb, nc, ?_⟩
  intro hr35 hcap
  have h10 : growthHeuristic df = 10 := b1 (by rw [hr35]; norm_num)
  have := nc (by rw [h10]; exact hcap)
  rw [h10] at this
  exact this

/-- C7 witness: a 50-bar frame with last-bar RSI 35 and constant close 1
(no historical-high cap). -/
theorem growth_buckets_spec_witness :
    calculate_growth_potential (some dfW7)
      = (10, (lastRow dfW7).close * (1 + (10 : ℚ) / 100)) :=
  (growth_buckets_spec dfW7 (by decide) 35 (by with_unfolding_all decide)).2.2.2.2.2
    rfl (by with_unfolding_all decide)

theorem mem_posDeltas_nonneg (c : List ℚ) : ∀ x ∈ posDeltas c, 0 ≤ x := by
  intro x hx
  simp only [posDeltas, List.mem_map] at hx
  obtain ⟨i, _, rfl⟩ := hx
  split_ifs
  · exact le_refl 0
  · exact le_max_right _ _

theorem mem_negDeltas_nonneg (c : List ℚ) : ∀ x ∈ negDeltas c, 0 ≤ x := by
  intro x hx
  simp only [negDeltas, List.mem_map] at hx
  obtain ⟨i, _, rfl⟩ := hx
  split_ifs
  · exact le_refl 0
  · exact le_max_right _ _

theorem rollMean_nonneg (w : ℕ) (l : List ℚ) (i : ℕ) (hnn : ∀ x ∈ l, 0 ≤ x) (g : ℚ)
    (h : rollMean w l i = some g) : 0 ≤ g := by
  by_cases hw : i + 1 < w
  · rw [rollMean, if_pos hw] at h
    exact absurd h (by simp)
  · rw [rollMean, if_neg hw] at h
    have hg : ((l.drop (i + 1 - w)).take w).sum / (w : ℚ) = g := Option.some.inj h
    rw [← hg]
    apply div_nonneg
    · apply List.sum_nonneg
      intro x hx
      exact hnn x (List.drop_subset _ _ (List.take_subset _ _ hx))
    · exact Nat.cast_nonneg w

/-- C4 amended: for every bar with a full 14-bar window, if the window mean
loss is 0 and the mean gain is positive then RSI is exactly 100 (by IEEE
inf propagation, not an explicit special case); if gain and loss are both 0
(a flat window) RSI is NaN, undefined, rather than 100; and whenever RSI is
defined it lies in [0,100]. -/
theorem rsi_range_amended (c : List ℚ) (i : ℕ) (hfull : 13 ≤ i) (g l : ℚ)
    (hg : rollMean 14 (posDeltas c) i = some g)
    (hl : rollMean 14 (negDeltas c) i = some l) :
    ((l = 0 ∧ g = 0) → rsiAt c i = none)
    ∧ ((l = 0 ∧ g ≠ 0) → rsiAt c i = some 100)
    ∧ (∀ x : ℚ, rsiAt c i = some x → 0 ≤ x ∧ x ≤ 100) := by
  have hg0 : 0 ≤ g := rollMean_nonneg 14 (posDeltas c) i (mem_posDeltas_nonneg c) g hg
  have hl0 : 0 ≤ l := rollMean_nonneg 14 (negDeltas c) i (mem_negDeltas_nonneg c) l hl
  have hrsi : rsiAt c i
      = (if l = 0 then (if g = 0 then none else some 100)
         else some (100 - 100 / (1 + g / l))) := by
    simp only [rsiAt, hg, hl]
  refine ⟨?_, ?_, ?_⟩
  · rintro ⟨h1, h2⟩
    rw [hrsi, if_pos h1, if_pos h2]
  · rintro ⟨h1, h2⟩
    rw [hrsi, if_pos h1, if_neg h2]
  · intro x hx
    rw [hrsi] at hx
    by_cases h1 : l = 0
    · rw [if_pos h1] at hx
      by_cases h2 : g = 0
      · rw [if_pos h2] at hx
        exact absurd hx (by simp)
      · rw [if_neg h2] at hx
        have hx' := Option.some.inj hx
        rw [← hx']
        norm_num
    · rw [if_neg h1] at hx
      have hx' := Option.some.inj hx
      have hlpos : 0 < l := lt_of_le_of_ne hl0 (Ne.symm h1)
      have hq : 0 ≤ g / l := div_nonneg hg0 (le_of_lt hlpos)
      rw [← hx']
      constructor
      · have hle : 100 / (1 + g / l) ≤ 100 := div_le_self (by norm_num) (by linarith)
        linarith
      · have hgt : 0 < 100 / (1 + g / l) := div_pos (by norm_num) (by linarith)
        linarith

/-- C4 amended witness: the alternating 1,2 series, gain 1/2 and loss 3/7
at bar 13; the range bound is instantiated there. -/
theorem rsi_range_amended_witness :
    0 ≤ (700/13 : ℚ) ∧ (700/13 : ℚ) ≤ 100 :=
  (rsi_range_amended cW 13 (by norm_num) (1/2) (3/7)
    (by with_unfolding_all decide) (by with_unfolding_all decide)).2.2 (700/13)
    (by with_unfolding_all decide)

theorem collectOpps_cons_none (b : ℚ) (i : ℕ) (tl : List (Option (List Row))) :
    collectOpps b i (none :: tl) = collectOpps b (i + 1) tl := rfl

theorem collectOpps_cons_skip (b : ℚ) (i : ℕ) (raw : List Row)
    (tl : List (Option (List Row))) (h : mkOpp b i raw = none) :
    collectOpps b i (some raw :: tl) = collectOpps b (i + 1) tl := by
  simp [collectOpps, h]

theorem collectOpps_cons_keep (b : ℚ) (i : ℕ) (raw : List Row)
    (tl : List (Option (List Row))) (o : Opp) (h : mkOpp b i raw = some o) :
    collectOpps b i (some raw :: tl) = o :: collectOpps b (i + 1) tl := by
  simp [collectOpps, h]

theorem mkOpp_eq_some (b : ℚ) (i : ℕ) (raw : List Row) (o : Opp)
    (h : mkOpp b i raw = some o) :
    50 ≤ raw.length ∧ o.idx = i ∧ o.price ≤ b
    ∧ o.shares = pyInt (b / o.price) ∧ 1 ≤ o.shares := by
  cases hc : calculate_technical_indicators (some raw) with
  | none => simp [mkOpp, hc] at h
  | some dfi =>
    simp only [mkOpp, hc] at h
    by_cases h1 : b < (lastRow dfi).close
    · rw [if_pos h1] at h
      exact absurd h (by simp)
    · rw [if_neg h1] at h
      by_cases h2 : pyInt (b / (lastRow dfi).close) < 1
      · rw [if_pos h2] at h
        exact absurd h (by simp)
      · rw [if_neg h2] at h
        have ho := (Option.some.inj h).symm
        subst ho
        exact ⟨(calcTI_some raw dfi hc).1, rfl, le_of_not_lt h1, rfl, le_of_not_lt h2⟩

theorem collectOpps_mem (b : ℚ) : ∀ (u : List (Option (List Row))) (i : ℕ) (o : Opp),
    o ∈ collectOpps b i u →
    o.price ≤ b ∧ o.shares = pyInt (b / o.price) ∧ 1 ≤ o.shares
    ∧ ∃ j raw, u[j]? = some (some raw) ∧ o.idx = i + j ∧ 50 ≤ raw.length := by
  intro u
  induction u with
  | nil => intro i o ho; simp [collectOpps] at ho
  | cons hd tl ih =>
    intro i o ho
    cases hd with
    | none =>
      rw [collectOpps_cons_none] at ho
      obtain ⟨hp, hs, h1, j, raw, hj, hidx, hlen⟩ := ih (i + 1) o ho
      exact ⟨hp, hs, h1, j + 1, raw, by simpa using hj, by omega, hlen⟩
    | some raw0 =>
      cases hm : mkOpp b i raw0 with
      | none =>
        rw [collectOpps_cons_skip b i raw0 tl hm] at ho
        obtain ⟨hp, hs, h1, j, raw, hj, hidx, hlen⟩ := ih (i + 1) o ho
        exact ⟨hp, hs, h1, j + 1, raw, by simpa using hj, by omega, hlen⟩
      | some o0 =>
        rw [collectOpps_cons_keep b i raw0 tl o0 hm] at ho
        rcases List.mem_cons.mp ho with rfl | htl
        · obtain ⟨hlen, hidx, hp, hs, h1⟩ := mkOpp_eq_some b i raw0 o hm
          exact ⟨hp, hs, h1, 0, raw0, by simp, by omega, hlen⟩
        · obtain ⟨hp, hs, h1, j, raw, hj, hidx, hlen⟩ := ih (i + 1) o htl
          exact ⟨hp, hs, h1, j + 1, raw, by simpa using hj, by omega, hlen⟩

theorem collectOpps_idx (b : ℚ) : ∀ (u : List (Option (List Row))) (i : ℕ),
    (∀ o ∈ collectOpps b i u, i ≤ o.idx)
    ∧ (collectOpps b i u).Pairwise (fun a a' => a.idx < a'.idx) := by
  intro u
  induction u with
  | nil => intro i; simp [collectOpps]
  | cons hd tl ih =>
    intro i
    cases hd with
    | none =>
      rw [collectOpps_cons_none]
      obtain ⟨hb, hp⟩ := ih (i + 1)
      exact ⟨fun o ho => le_trans (by omega) (hb o ho), hp⟩
    | some raw0 =>
      cases hm : mkOpp b i raw0 with
      | none =>
        rw [collectOpps_cons_skip b i raw0 tl hm]
        obtain ⟨hb, hp⟩ := ih (i + 1)
        exact ⟨fun o ho => le_trans (by omega) (hb o ho), hp⟩
      | some o0 =>
        rw [collectOpps_cons_keep b i raw0 tl o0 hm]
        obtain ⟨hb, hp⟩ := ih (i + 1)
        have hidx0 : o0.idx = i := (mkOpp_eq_some b i raw0 o0 hm).2.1
        constructor
        · intro o ho
          rcases List.mem_cons.mp ho with rfl | htl
          · exact le_of_eq hidx0.symm
          · exact le_trans (by omega) (hb o htl)
        · refine List.Pairwise.cons ?_ hp
          intro o' ho'
          have h' := hb o' ho'
          omega

theorem pairwise_conj {α : Type} {R S : α → α → Prop} :
    ∀ {l : List α}, l.Pairwise R → l.Pairwise S →
      l.Pairwise fun a b => R a b ∧ S a b := by
  intro l
  induction l with
  | nil => intro _ _; exact List.Pairwise.nil
  | cons x xs ih =>
    intro hr hs
    obtain ⟨hr1, hr2⟩ := List.pairwise_cons.mp hr
    obtain ⟨hs1, hs2⟩ := List.pairwise_cons.mp hs
    exact List.Pairwise.cons (fun y hy => ⟨hr1 y hy, hs1 y hy⟩) (ih hr2 hs2)

theorem orderedInsert_stable (x : Opp) : ∀ l : List Opp,
    l.Pairwise (fun a a' => a.trendScore = a'.trendScore → a.idx < a'.idx) →
    (∀ y ∈ l, x.trendScore = y.trendScore → x.idx < y.idx) →
    (List.orderedInsert oppLe x l).Pairwise
      (fun a a' => a.trendScore = a'.trendScore → a.idx < a'.idx) := by
  intro l
  induction l with
  | nil => intro _ _; simp
  | cons y ys ih =>
    intro hp hx
    obtain ⟨hy, hys⟩ := List.pairwise_cons.mp hp
    simp only [List.orderedInsert]
    split_ifs with hle
    · exact List.Pairwise.cons (fun z hz => hx z hz) hp
    · refine List.Pairwise.cons ?_
        (ih hys fun z hz => hx z (List.mem_cons_of_mem y hz))
      intro z hz
      rcases (List.mem_orderedInsert oppLe).mp hz with rfl | hzys
      · intro heq
        exact absurd (le_of_eq heq) hle
      · exact hy z hzys

theorem insertionSort_stable : ∀ l : List Opp,
    l.Pairwise (fun a a' => a.idx < a'.idx) →
    (List.insertionSort oppLe l).Pairwise
      (fun a a' => a.trendScore = a'.trendScore → a.idx < a'.idx) := by
  intro l
  induction l with
  | nil => intro _; simp
  | cons x xs ih =>
    intro hp
    obtain ⟨hx, hxs⟩ := List.pairwise_cons.mp hp
    simp only [List.insertionSort]
    apply orderedInsert_stable
    · exact ih hxs
    · intro y hy _
      exact hx y ((List.perm_insertionSort oppLe xs).subset hy)

theorem pyInt_eq_floor_of_one_le (q : ℚ) (h : 1 ≤ pyInt q) : pyInt q = ⌊q⌋ := by
  by_cases hq : q < 0
  · exfalso
    rw [pyInt, if_pos hq] at h
    have h2 : 0 ≤ ⌊-q⌋ := Int.floor_nonneg.mpr (by linarith)
    omega
  · rw [pyInt, if_neg hq]

/-- C5: the screening output is sorted by trendScore descending with ties
in discovery order (stable sort); every emitted Opportunity has
price at most budget and sharesAffordable = floor(budget/price) at least
1; and every emitted Opportunity stems from a successful fetch with at
least 50 bars (failed fetches, empty series and short series never
appear). -/
theorem screening_pipeline_spec (tickers : List (Option (List Row))) (budget : ℚ) :
    (find_stock_opportunities tickers budget).Pairwise
      (fun a a' => a'.trendScore ≤ a.trendScore
        ∧ (a.trendScore = a'.trendScore → a.idx < a'.idx))
    ∧ ∀ o ∈ find_stock_opportunities tickers budget,
        o.price ≤ budget ∧ o.shares = pyInt (budget / o.price)
        ∧ o.shares = ⌊budget / o.price⌋ ∧ 1 ≤ o.shares
        ∧ ∃ raw, tickers[o.idx]? = some (some raw) ∧ 50 ≤ raw.length := by
  constructor
  · have hsorted : (find_stock_opportunities tickers budget).Pairwise oppLe :=
      List.sorted_insertionSort oppLe _
    have hstable := insertionSort_stable (collectOpps budget 0 tickers)
      (collectOpps_idx budget tickers 0).2
    exact pairwise_conj hsorted hstable
  · intro o ho
    have ho' : o ∈ collectOpps budget 0 tickers :=
      (List.perm_insertionSort oppLe _).subset ho
    obtain ⟨hp, hs, h1, j, raw, hj, hidx, hlen⟩ := collectOpps_mem budget tickers 0 o ho'
    have hjo : o.idx = j := by omega
    refine ⟨hp, hs, ?_, h1, raw, ?_, hlen⟩
    · rw [hs]
      exact pyInt_eq_floor_of_one_le _ (hs ▸ h1)
    · rw [hjo]
      exact hj

/-- C5 witness: the three-ticker universe U5 with budget 100; the single
emitted opportunity satisfies all the pipeline invariants. -/
theorem screening_pipeline_spec_witness :
    o5.price ≤ 100 ∧ o5.shares = pyInt (100 / o5.price)
    ∧ o5.shares = ⌊(100 : ℚ) / o5.price⌋ ∧ 1 ≤ o5.shares
    ∧ ∃ raw, U5[o5.idx]? = some (some raw) ∧ 50 ≤ raw.length :=
  (screening_pipeline_spec U5 100).2 o5 (by with_unfolding_all decide)
